import Mathlib

/-!
Shallow embedding of the forecast decoder/assembler of the
`Surfuguru/forecast-api-lambda` repository
(`src/lambdas/forecast/parser/{directions,variables,parser,builder}.py`
and `src/lambdas/forecast/legacy.py`).

Numeric modelling conventions:
* Python `int` is `ℤ`, Python `float` arithmetic is modelled over `ℚ`
  (exact; the `/ 10` scalings and the compass arithmetic in play are
  exact in IEEE doubles for the integer wire values, so no claim below
  hinges on rounding), with a dedicated `PyFloat` type that carries the
  non-finite values `nan`/`inf`/`-inf` where the code can produce them.
* Fallible Python code (an uncaught exception) is `Option`: `none` means
  the exception propagates to the caller.
* Python `str.split(c)` for a one-character separator is `pySplit`
  (split at every occurrence, empty pieces kept, `"".split(c) = [""]`).
-/

namespace Surfguru

/-! ### Python primitives -/

/-- Python `str.split(sep)` for a single-character separator. -/
def pySplit (s : String) (sep : Char) : List String :=
  (s.data.splitOn sep).map String.mk

/-- Exact rational division, via `Rat.divInt` so that it evaluates by
kernel reduction (`Rat.inv`, hence `/`, is `@[irreducible]`); proved
equal to `/` in `qdiv_eq_div` below. -/
def qdiv (a b : ℚ) : ℚ :=
  Rat.divInt (a.num * b.den) (a.den * b.num)

/-- Reducible rational addition (`Rat.add` is `@[irreducible]`); proved
equal to `+` in `qadd_eq_add` below. -/
def qadd (a b : ℚ) : ℚ :=
  Rat.divInt (a.num * b.den + b.num * a.den) ((a.den : ℤ) * b.den)

/-- Reducible rational subtraction; proved equal to `-` in
`qsub_eq_sub` below. -/
def qsub (a b : ℚ) : ℚ :=
  Rat.divInt (a.num * b.den - b.num * a.den) ((a.den : ℤ) * b.den)

/-- Reducible rational multiplication; proved equal to `*` in
`qmul_eq_mul` below. -/
def qmul (a b : ℚ) : ℚ :=
  Rat.divInt (a.num * b.num) ((a.den : ℤ) * b.den)

/-- Python `str.strip()`: drop whitespace at both ends. -/
def stripChars (cs : List Char) : List Char :=
  ((cs.dropWhile Char.isWhitespace).reverse.dropWhile Char.isWhitespace).reverse

/-- Leading sign of a numeric literal: returns (isNegative, rest). -/
def splitSign : List Char → Bool × List Char
  | '-' :: rest => (true, rest)
  | '+' :: rest => (false, rest)
  | cs => (false, cs)

/-- Numeric value of a digit string (most significant first). -/
def digitsVal (cs : List Char) : ℕ :=
  cs.foldl (fun a c => a * 10 + (c.toNat - 48)) 0

/-- Fractional value of the digit string after a decimal point. -/
def fracVal (cs : List Char) : ℚ :=
  cs.foldr (fun c a => qdiv (qadd ((c.toNat - 48 : ℕ) : ℚ) a) 10) 0

/-- Python `int(s)` on a string: optional sign plus decimal digits;
`none` models the `ValueError` raised on any other input.
(Underscore separators, not used by the wire format, are not modelled.) -/
def str_to_int? (s : String) : Option ℤ :=
  match splitSign (stripChars s.data) with
  | (neg, ds) =>
    if ds ≠ [] ∧ ds.all Char.isDigit then
      some (if neg then -(digitsVal ds : ℤ) else (digitsVal ds : ℤ))
    else none

/-- A Python float value: a finite rational or one of the IEEE specials. -/
inductive PyFloat where
  | finite (q : ℚ)
  | nan
  | inf
  | ninf
deriving DecidableEq

/-- Python `float(s)` on a string: sign, decimal digits with an optional
fractional part, or the special spellings of nan/infinity; `none`
models the `ValueError` on anything else.
(Exponents and underscores, absent from the wire data, are not modelled.) -/
def str_to_float? (s : String) : Option PyFloat :=
  match splitSign ((stripChars s.data).map Char.toLower) with
  | (neg, cs) =>
    if cs = ['n', 'a', 'n'] then some PyFloat.nan
    else if cs = ['i', 'n', 'f'] ∨ cs = ['i', 'n', 'f', 'i', 'n', 'i', 't', 'y'] then
      some (if neg then PyFloat.ninf else PyFloat.inf)
    else
      match cs.splitOn '.' with
      | [a] =>
        if a ≠ [] ∧ a.all Char.isDigit then
          some (PyFloat.finite (if neg then -(digitsVal a : ℚ) else (digitsVal a : ℚ)))
        else none
      | [a, b] =>
        if (a ≠ [] ∨ b ≠ []) ∧ a.all Char.isDigit ∧ b.all Char.isDigit then
          some (PyFloat.finite
            (if neg then -(qadd (digitsVal a : ℚ) (fracVal b))
             else qadd (digitsVal a : ℚ) (fracVal b)))
        else none
      | _ => none

/-- A value handed to `get_direction` / `normalize_degrees`: Python is
dynamically typed there (the callers pass strings; `None`, ints and
floats are possible inputs as well). -/
inductive PyVal where
  | nil
  | int (n : ℤ)
  | float (f : PyFloat)
  | str (s : String)

/-- Python `float(x)`: `none` models the `TypeError`/`ValueError` branch. -/
def pyFloatOf? : PyVal → Option PyFloat
  | PyVal.nil => none
  | PyVal.int n => some (PyFloat.finite (n : ℚ))
  | PyVal.float f => some f
  | PyVal.str s => str_to_float? s

/-- Float division by a positive finite constant. -/
def pyDivC (f : PyFloat) (c : ℚ) : PyFloat :=
  match f with
  | PyFloat.finite q => PyFloat.finite (qdiv q c)
  | PyFloat.nan => PyFloat.nan
  | PyFloat.inf => PyFloat.inf
  | PyFloat.ninf => PyFloat.ninf

/-- Python `x % m` for a positive finite constant `m`: the result takes
the sign of the divisor, and `nan % m = inf % m = nan`. -/
def pyModC (f : PyFloat) (m : ℚ) : PyFloat :=
  match f with
  | PyFloat.finite q => PyFloat.finite (qsub q (qmul m ((⌊qdiv q m⌋ : ℤ) : ℚ)))
  | _ => PyFloat.nan

/-- Float addition of a finite constant (the specials absorb it). -/
def pyAddC (f : PyFloat) (c : ℚ) : PyFloat :=
  match f with
  | PyFloat.finite q => PyFloat.finite (qadd q c)
  | x => x

/-- Float subtraction of a finite constant (the specials absorb it). -/
def pySubC (f : PyFloat) (c : ℚ) : PyFloat :=
  match f with
  | PyFloat.finite q => PyFloat.finite (qsub q c)
  | x => x

/-- Python `f < c` (false on nan). -/
def pyLtC (f : PyFloat) (c : ℚ) : Bool :=
  match f with
  | PyFloat.finite q => decide (q < c)
  | PyFloat.nan => false
  | PyFloat.inf => false
  | PyFloat.ninf => true

/-- Python `f > c` (false on nan). -/
def pyGtC (f : PyFloat) (c : ℚ) : Bool :=
  match f with
  | PyFloat.finite q => decide (c < q)
  | PyFloat.nan => false
  | PyFloat.inf => true
  | PyFloat.ninf => false

/-- Python `int(f)`: truncation toward zero; `none` models the
`ValueError`/`OverflowError` raised on nan and the infinities. -/
def pyTrunc (f : PyFloat) : Option ℤ :=
  match f with
  | PyFloat.finite q => some (if q < 0 then -⌊-q⌋ else ⌊q⌋)
  | _ => none

/-- Python list indexing `l[i]` (negative indices count from the end;
`none` models the `IndexError`). -/
def pyIndex (l : List String) (i : ℤ) : Option String :=
  if 0 ≤ i then l.get? i.toNat
  else if (-i).toNat ≤ l.length then l.get? (l.length - (-i).toNat) else none

/-! ### directions.py -/

/-- The 16-sector compass table, with the duplicated `SSO` of the source. -/
def DIRECTION_RANGES : List String :=
  ["N", "NNE", "NE", "ENE", "E", "ESE", "SE", "SSE",
   "S", "SSO", "SSO", "OSO", "O", "ONO", "NO", "NNO"]

/-- `normalize_degrees` of directions.py: parse the input as a float
(0 on failure) and fold it once into range. -/
def normalize_degrees (degrees_value : PyVal) : PyFloat :=
  match pyFloatOf? degrees_value with
  | none => PyFloat.finite 0
  | some degrees =>
    if pyLtC degrees 0 then pyAddC degrees 360
    else if pyGtC degrees 360 then pySubC degrees 360
    else degrees

/-- `get_direction` of directions.py. `none` models an uncaught
exception (`int()` of a nan/infinite quadrant). -/
def get_direction (degrees_value : PyVal) : Option String := do
  let degrees := normalize_degrees degrees_value
  let quadrant_in_32 := pyAddC (pyModC (pyDivC degrees (Rat.divInt 45 4)) 32) 1
  let quadrant ← pyTrunc (pyDivC quadrant_in_32 2)
  let quadrant_number := if 16 ≤ quadrant then quadrant - 16 else quadrant
  pyIndex DIRECTION_RANGES quadrant_number

/-! ### variables.py -/

def OCEAN_VARIABLES : List (String × ℕ) :=
  [("wave_height", 0), ("wave_period", 1), ("primary_direction", 2),
   ("total_energy", 3), ("total_power", 4),
   ("windseas_height", 5), ("windseas_period", 6), ("windseas_direction", 7),
   ("windseas_energy", 8), ("windseas_power", 9),
   ("swell_a_height", 10), ("swell_a_period", 11), ("swell_a_direction", 12),
   ("swell_a_energy", 13), ("swell_a_power", 14),
   ("swell_b_height", 15), ("swell_b_period", 16), ("swell_b_direction", 17),
   ("swell_b_energy", 18), ("swell_b_power", 19),
   ("sea_wind", 20), ("sea_wind_direction", 21), ("tides", 23)]

def BEACH_VARIABLES : List (String × ℕ) :=
  [("wave_height", 0), ("windseas_height", 1),
   ("primary_swell_height", 2), ("secondary_swell_height", 3)]

def ATMOSPHERIC_VARIABLES : List (String × ℕ) :=
  [("storm_potential", 3), ("pressure", 4), ("temperature", 5),
   ("clouds", 6), ("precipitation", 7)]

def WIND_VARIABLES : List (String × ℕ) :=
  [("wind", 0), ("wind_direction", 1), ("wind_gust", 2), ("pressure", 4)]

def TIME_HOURS : List ℕ := [0, 3, 6, 9, 12, 15, 18, 21]

def DIVISOR_FACTOR : ℚ := 10

/-- Dictionary access `D[key]`; every key used by the source is present,
so the `KeyError` branch (default 0) is unreachable at all call sites. -/
def dget (d : List (String × ℕ)) (k : String) : ℕ :=
  (d.lookup k).getD 0

/-! ### parser.py -/

/-- `ForecastParser.divide_by_ten`: `int(value) / 10`, falling back to
0.0 on a parse failure. -/
def divide_by_ten (value : String) : ℚ :=
  match str_to_int? value with
  | some n => qdiv (n : ℚ) DIVISOR_FACTOR
  | none => 0

/-- `ForecastParser.parse_day_variables`: `None` for an empty string,
else split on `;` then each variable on `:`.  (The `try` around the
splits can never fire: `str.split` is total.) -/
def parse_day_variables (data_string : String) : Option (List (List String)) :=
  if data_string = "" then none
  else some ((pySplit data_string ';').map (fun v => pySplit v ':'))

structure Tide where
  time : String
  height : String
deriving DecidableEq

/-- `ForecastParser.parse_tides`: one entry per complete 6-character
group.  Character accesses are guarded by `index + 6 <= len`, so the
`except` around the loop is unreachable; `getD` stands for the guarded
in-range `s[k]`. -/
def parse_tides (tides_string : String) : List Tide :=
  if tides_string.length < 6 then []
  else
    (List.range (tides_string.length / 6)).filterMap (fun i =>
      let index := i * 6
      if index + 6 ≤ tides_string.length then
        some
          { time := String.mk [tides_string.data.getD index ' ',
                               tides_string.data.getD (index + 1) ' ', ':',
                               tides_string.data.getD (index + 2) ' ',
                               tides_string.data.getD (index + 3) ' '],
            height := String.mk [tides_string.data.getD (index + 4) ' ', '.',
                                 tides_string.data.getD (index + 5) ' '] }
      else none)

/-- The arithmetic of `ForecastParser.get_wind_type` on two integer
arguments (its declared `int` contract, as the compass tests exercise
it).  At the run-time call site the wind direction is a string and the
renormalization branch then raises `TypeError` instead of comparing —
see `get_wind_type`. -/
def get_wind_type_core (beach_orientation wind_direction : ℤ) : String :=
  let angle0 := beach_orientation - wind_direction
  let angle1 :=
    if 180 < angle0 ∨ angle0 < -180 then
      if beach_orientation < wind_direction then beach_orientation + 360 - wind_direction
      else beach_orientation - (wind_direction + 360)
    else angle0
  if 125 < angle1.natAbs then "OFFSHORE"
  else if 65 < angle1.natAbs then "CROSSED"
  else "ONSHORE"

/-- `ForecastParser.get_wind_type` as called (wind direction a string):
a failing `int()` raises `ValueError`, caught as `OCEANIC`.  When the
angle falls outside the ±180 band, the renormalization branch compares
the integer orientation with the raw string
(`beach_orientation < wind_direction`), raising `TypeError` — also
caught — so every out-of-band angle yields `OCEANIC` and the thresholds
only apply within the band (where no renormalization happens). -/
def get_wind_type (beach_orientation : ℤ) (wind_direction : String) : String :=
  match str_to_int? wind_direction with
  | some w =>
    let angle := beach_orientation - w
    if 180 < angle ∨ angle < -180 then "OCEANIC"
    else if 125 < angle.natAbs then "OFFSHORE"
    else if 65 < angle.natAbs then "CROSSED"
    else "ONSHORE"
  | none => "OCEANIC"

/-- The `safe_get` helper of `parse_waves`: `vars_list[var_index][hour_index]`
with the `IndexError` mapped to the default. -/
def safe_get (vars_list : List (List String)) (var_index hour_index : ℕ)
    (default : String) : String :=
  match vars_list.get? var_index with
  | some row => row.getD hour_index default
  | none => default

/-- The `get_wave_value` helper of `parse_waves`: prefer the beach
overlay when it is truthy (present and non-empty); `none` models the
`ValueError` of the (unused at all call sites) `int(val)` branch. -/
def get_wave_value (oceanic_vars : List (List String))
    (beach_vars : Option (List (List String)))
    (oceanic_key beach_key : String) (hour_idx : ℕ) (divide : Bool) : Option ℚ :=
  let val :=
    match beach_vars with
    | some bv =>
      if bv.isEmpty then safe_get oceanic_vars (dget OCEAN_VARIABLES oceanic_key) hour_idx "0"
      else safe_get bv (dget BEACH_VARIABLES beach_key) hour_idx "0"
    | none => safe_get oceanic_vars (dget OCEAN_VARIABLES oceanic_key) hour_idx "0"
  if divide then some (divide_by_ten val)
  else (str_to_int? val).map (fun n => (n : ℚ))

structure WaveChannel where
  value : ℚ
  period : ℚ
  direction : String
  directionDegree : ℤ
  power : ℚ
  energy : ℤ
deriving DecidableEq

structure Waves where
  totalHeight : WaveChannel
  windseas : WaveChannel
  swellA : WaveChannel
  swellB : WaveChannel
deriving DecidableEq

/-- One channel of `parse_waves`' result dictionary.  The bare `int(...)`
conversions of `directionDegree` and `energy`, and a nan/inf compass
lookup, are uncaught exceptions (`none`); `period`/`power` go through
the lenient `divide_by_ten`. -/
def wave_channel (oceanic_vars : List (List String))
    (beach_vars : Option (List (List String)))
    (height_okey height_bkey period_key dir_key power_key energy_key : String)
    (index : ℕ) : Option WaveChannel := do
  let value ← get_wave_value oceanic_vars beach_vars height_okey height_bkey index true
  let direction ← get_direction
    (PyVal.str (safe_get oceanic_vars (dget OCEAN_VARIABLES dir_key) index "0"))
  let directionDegree ← str_to_int?
    (safe_get oceanic_vars (dget OCEAN_VARIABLES dir_key) index "0")
  let energy ← str_to_int?
    (safe_get oceanic_vars (dget OCEAN_VARIABLES energy_key) index "0")
  pure { value := value,
         period := divide_by_ten (safe_get oceanic_vars (dget OCEAN_VARIABLES period_key) index "0"),
         direction := direction,
         directionDegree := directionDegree,
         power := divide_by_ten (safe_get oceanic_vars (dget OCEAN_VARIABLES power_key) index "0"),
         energy := energy }

/-- `ForecastParser.parse_waves`. -/
def parse_waves (oceanic_vars : List (List String))
    (beach_vars : Option (List (List String))) (index : ℕ) : Option Waves := do
  let totalHeight ← wave_channel oceanic_vars beach_vars
    "wave_height" "wave_height" "wave_period" "primary_direction" "total_power" "total_energy" index
  let windseas ← wave_channel oceanic_vars beach_vars
    "windseas_height" "windseas_height" "windseas_period" "windseas_direction" "windseas_power" "windseas_energy" index
  let swellA ← wave_channel oceanic_vars beach_vars
    "swell_a_height" "primary_swell_height" "swell_a_period" "swell_a_direction" "swell_a_power" "swell_a_energy" index
  let swellB ← wave_channel oceanic_vars beach_vars
    "swell_b_height" "secondary_swell_height" "swell_b_period" "swell_b_direction" "swell_b_power" "swell_b_energy" index
  pure { totalHeight := totalHeight, windseas := windseas, swellA := swellA, swellB := swellB }

/-- The `safe_get` helper of `parse_winds`: an absent or empty (falsy)
`vars_list` yields the default before any indexing. -/
def safe_get_opt (vars_list : Option (List (List String))) (var_index hour_index : ℕ)
    (default : String) : String :=
  match vars_list with
  | none => default
  | some l => if l.isEmpty then default else safe_get l var_index hour_index default

structure WindCoast where
  directionDegree : ℤ
  wind : ℤ
  windGust : ℤ
  pressure : String
  type : String
  direction : String
deriving DecidableEq

structure WindSea where
  direction : ℤ
  wind : ℤ
deriving DecidableEq

structure Winds where
  coast : WindCoast
  sea : WindSea
deriving DecidableEq

/-- `ForecastParser.parse_winds`.  The sea wind is read from slot 0
whatever the hour.  The bare `int(...)` conversions are uncaught
(`none`). -/
def parse_winds (beach_orientation : Option ℤ)
    (atmospheric_vars : Option (List (List String)))
    (oceanic_vars : List (List String))
    (forecast_type : String) (index : ℕ) : Option Winds := do
  let wind_direction := safe_get_opt atmospheric_vars (dget WIND_VARIABLES "wind_direction") index "0"
  let wind_type :=
    match beach_orientation with
    | some o => if forecast_type = "SURF" then get_wind_type o wind_direction else "OCEANIC"
    | none => "OCEANIC"
  let directionDegree ← str_to_int?
    (safe_get_opt atmospheric_vars (dget WIND_VARIABLES "wind_direction") index "0")
  let wind ← str_to_int? (safe_get_opt atmospheric_vars (dget WIND_VARIABLES "wind") index "0")
  let windGust ← str_to_int?
    (safe_get_opt atmospheric_vars (dget WIND_VARIABLES "wind_gust") index "0")
  let direction ← get_direction (PyVal.str wind_direction)
  let seaDirection ← str_to_int?
    (safe_get_opt (some oceanic_vars) (dget OCEAN_VARIABLES "sea_wind_direction") 0 "0")
  let seaWind ← str_to_int?
    (safe_get_opt (some oceanic_vars) (dget OCEAN_VARIABLES "sea_wind") 0 "0")
  pure { coast := { directionDegree := directionDegree, wind := wind, windGust := windGust,
                    pressure := safe_get_opt atmospheric_vars (dget ATMOSPHERIC_VARIABLES "pressure") index "0",
                    type := wind_type, direction := direction },
         sea := { direction := seaDirection, wind := seaWind } }

structure Atmos where
  pressure : ℤ
  temperature : ℤ
  clouds : ℤ
  precipitation : ℤ
  stormPotential : ℤ
deriving DecidableEq

/-- The `safe_get` helper of `parse_atmospheric`: here the `int()` sits
inside the `try`, so the parse is lenient. -/
def safe_get_int (vars_list : Option (List (List String))) (var_index hour_index : ℕ)
    (default : ℤ) : ℤ :=
  match vars_list with
  | none => default
  | some l =>
    if l.isEmpty then default
    else
      match l.get? var_index with
      | some row =>
        match row.get? hour_index with
        | some cell => (str_to_int? cell).getD default
        | none => default
      | none => default

/-- `ForecastParser.parse_atmospheric` (total). -/
def parse_atmospheric (atmospheric_vars : Option (List (List String))) (index : ℕ) : Atmos :=
  { pressure := safe_get_int atmospheric_vars (dget ATMOSPHERIC_VARIABLES "pressure") index 0,
    temperature := safe_get_int atmospheric_vars (dget ATMOSPHERIC_VARIABLES "temperature") index 0,
    clouds := safe_get_int atmospheric_vars (dget ATMOSPHERIC_VARIABLES "clouds") index 0,
    precipitation := safe_get_int atmospheric_vars (dget ATMOSPHERIC_VARIABLES "precipitation") index 0,
    stormPotential := safe_get_int atmospheric_vars (dget ATMOSPHERIC_VARIABLES "storm_potential") index 0 }

structure Hour where
  hour : String
  waves : Waves
  winds : Winds
  atmospheric : Atmos
deriving DecidableEq

/-- `f"{str(hour).zfill(2)}:00"`. -/
def hourLabel (h : ℕ) : String :=
  (if h < 10 then "0" ++ toString h else toString h) ++ ":00"

/-- The loop body of `ForecastParser.parse_wave_hours`, over
`enumerate(TIME_HOURS)` pairs `(idx, hour)`. -/
def hours_loop (beach_orientation : Option ℤ) (oceanic_vars : List (List String))
    (beach_vars atmospheric_vars : Option (List (List String)))
    (forecast_type : String) : List (ℕ × ℕ) → Option (List Hour)
  | [] => some []
  | (idx, hour) :: rest => do
    let waves ← parse_waves oceanic_vars beach_vars idx
    let winds ← parse_winds beach_orientation atmospheric_vars oceanic_vars forecast_type idx
    let tail ← hours_loop beach_orientation oceanic_vars beach_vars atmospheric_vars forecast_type rest
    pure ({ hour := hourLabel hour, waves := waves, winds := winds,
            atmospheric := parse_atmospheric atmospheric_vars idx } :: tail)

/-- `ForecastParser.parse_wave_hours`. -/
def parse_wave_hours (beach_orientation : Option ℤ) (oceanic_vars : List (List String))
    (beach_vars atmospheric_vars : Option (List (List String)))
    (forecast_type : String) : Option (List Hour) :=
  hours_loop beach_orientation oceanic_vars beach_vars atmospheric_vars forecast_type
    TIME_HOURS.enum

/-! ### Calendar dates

`datetime` arithmetic used by `parse_days`: `strptime('%Y-%m-%d')`
validation, `timedelta(days=N)` addition with natural month/day/year
rollover on the Gregorian calendar, and `strftime('%Y-%m-%d')`
zero-padded printing.  `datetime.now()` enters as an explicit `today`
parameter. -/

structure Date where
  year : ℤ
  month : ℤ
  day : ℤ
deriving DecidableEq

def isLeapYear (y : ℤ) : Bool :=
  (y % 4 = 0 ∧ y % 100 ≠ 0) ∨ y % 400 = 0

def daysInMonth (y m : ℤ) : ℤ :=
  if m = 2 then (if isLeapYear y then 29 else 28)
  else if m = 4 ∨ m = 6 ∨ m = 9 ∨ m = 11 then 30
  else 31

def nextDay (d : Date) : Date :=
  if d.day < daysInMonth d.year d.month then { d with day := d.day + 1 }
  else if d.month < 12 then { year := d.year, month := d.month + 1, day := 1 }
  else { year := d.year + 1, month := 1, day := 1 }

def addDays (d : Date) : ℕ → Date
  | 0 => d
  | n + 1 => nextDay (addDays d n)

/-- Whether `strptime` accepts `f"{ano}-{mes}-{dia}"` as `%Y-%m-%d`:
the `%Y` directive matches exactly four digits, so the year must print
as four (1000–9999); month and day must then be in calendar range. -/
def validDate (d : Date) : Bool :=
  1000 ≤ d.year ∧ d.year ≤ 9999 ∧ 1 ≤ d.month ∧ d.month ≤ 12 ∧
    1 ≤ d.day ∧ d.day ≤ daysInMonth d.year d.month

def pad2 (n : ℤ) : String :=
  if n < 10 then "0" ++ toString n else toString n

def pad4 (n : ℤ) : String :=
  (if n < 10 then "000" else if n < 100 then "00" else if n < 1000 then "0" else "")
    ++ toString n

/-- `strftime('%Y-%m-%d')`. -/
def isoDate (d : Date) : String :=
  pad4 d.year ++ "-" ++ pad2 d.month ++ "-" ++ pad2 d.day

/-! ### parse_days and builder.py -/

/-- The `dados` dictionary of a location file: `ano/mes/dia` are the JSON
numbers defining day 0, `v`/`s` are the day-blob strings keyed `vN`/`sN`. -/
structure Dados where
  ano : Option ℤ
  mes : Option ℤ
  dia : Option ℤ
  v : ℕ → Option String
  s : ℕ → Option String

def emptyDados : Dados :=
  { ano := none, mes := none, dia := none, v := fun _ => none, s := fun _ => none }

/-- A fetched location file; `dados = none` covers both a missing and an
empty (falsy) `dados` entry. -/
structure Blob where
  dados : Option Dados

/-- `data.get('dados', {}) if data else {}`. -/
def dadosOf : Option Blob → Dados
  | some b => b.dados.getD emptyDados
  | none => emptyDados

structure Day where
  day : String
  hours : List Hour
  tides : List Tide
deriving DecidableEq

/-- One iteration of the day loop of `ForecastParser.parse_days`. -/
def parse_one_day (base_date : Date) (atmos_dados ocean_dados : Dados)
    (beach_orientation : Option ℤ) (forecast_type : String) (day_idx : ℕ) : Option Day :=
  let date_str := isoDate (addDays base_date day_idx)
  let oceanic_vars := parse_day_variables ((ocean_dados.v day_idx).getD "")
  let beach_vars := parse_day_variables ((ocean_dados.s day_idx).getD "")
  let atmospheric_vars := parse_day_variables ((atmos_dados.v day_idx).getD "")
  match oceanic_vars with
  | none => some { day := date_str, hours := [], tides := [] }
  | some ov =>
    if ov.isEmpty then some { day := date_str, hours := [], tides := [] }
    else do
      let hours ← parse_wave_hours beach_orientation ov beach_vars atmospheric_vars forecast_type
      let tides :=
        if day_idx = 0 ∧ dget OCEAN_VARIABLES "tides" < ov.length then
          parse_tides
            (match ov.get? (dget OCEAN_VARIABLES "tides") with
             | some row => if row.isEmpty then "" else row.headD ""
             | none => "")
        else []
      pure { day := date_str, hours := hours, tides := tides }

/-- The day loop of `ForecastParser.parse_days`. -/
def days_loop (base_date : Date) (atmos_dados ocean_dados : Dados)
    (beach_orientation : Option ℤ) (forecast_type : String) : List ℕ → Option (List Day)
  | [] => some []
  | day_idx :: rest => do
    let day ← parse_one_day base_date atmos_dados ocean_dados beach_orientation forecast_type day_idx
    let tail ← days_loop base_date atmos_dados ocean_dados beach_orientation forecast_type rest
    pure (day :: tail)

/-- `ForecastParser.parse_days`.  `base_date + timedelta(days=day_idx)`
sits outside the `try`, so it raises an uncaught `OverflowError` when
the date passes `datetime.max` (9999-12-31); the loop reaches day 14,
so the whole call fails exactly when day 14 is out of range. -/
def parse_days (today : Date) (atmospheric_data oceanic_data : Option Blob)
    (beach_orientation : Option ℤ) (forecast_type : String) : Option (List Day) :=
  let atmos_dados := dadosOf atmospheric_data
  let ocean_dados := dadosOf oceanic_data
  let a := ocean_dados.ano.getD today.year
  let m := ocean_dados.mes.getD today.month
  let d := ocean_dados.dia.getD today.day
  let base_date := if validDate { year := a, month := m, day := d }
    then ({ year := a, month := m, day := d } : Date) else today
  if 9999 < (addDays base_date 14).year then none
  else days_loop base_date atmos_dados ocean_dados beach_orientation forecast_type (List.range 15)

/-- The inner per-cell loop of `ForecastBuilder.get_max_value`:
`int(val)` with `ValueError` ignored, keeping the running maximum. -/
def parse_int_max (acc : ℤ) (values : List String) : ℤ :=
  values.foldl (fun max_val val =>
    match str_to_int? val with
    | some num_val => if max_val < num_val then num_val else max_val
    | none => max_val) acc

/-- One day of `ForecastBuilder.get_max_value`'s scan. -/
def max_value_step (data : Dados) (var_type : String) (var_index : ℕ)
    (max_val : ℤ) (day_idx : ℕ) : ℤ :=
  let day_string := ((if var_type = "s" then data.s else data.v) day_idx).getD ""
  if day_string = "" then max_val
  else
    match (pySplit day_string ';').get? var_index with
    | some row => parse_int_max max_val (pySplit row ':')
    | none => max_val

/-- `ForecastBuilder.get_max_value`.  (The `if not data: return 0.0`
shortcut is behaviourally the scan of an all-empty dictionary, which
also returns 0.) -/
def get_max_value (data : Dados) (var_key : String) (var_type : String)
    (should_divide : Bool) : ℚ :=
  match OCEAN_VARIABLES.lookup var_key with
  | none => 0
  | some var_index =>
    let max_val := (List.range 15).foldl (max_value_step data var_type var_index) 0
    if should_divide then qdiv (max_val : ℚ) DIVISOR_FACTOR else (max_val : ℚ)

/-- `ForecastBuilder.get_max_height`. -/
def get_max_height (data : Dados) (var_type : String) : ℚ :=
  get_max_value data "wave_height" var_type true

/-- One day of `ForecastBuilder.get_max_wind`'s scan (wind is row 0;
`len(variables) > 0` always holds, `get?` keeps the guard visible). -/
def max_wind_step (data : Dados) (max_wind : ℤ) (day_idx : ℕ) : ℤ :=
  let day_string := (data.v day_idx).getD ""
  if day_string = "" then max_wind
  else
    match (pySplit day_string ';').get? 0 with
    | some row => parse_int_max max_wind (pySplit row ':')
    | none => max_wind

/-- `ForecastBuilder.get_max_wind`. -/
def get_max_wind (atmospheric_data : Dados) : ℤ :=
  (List.range 15).foldl (max_wind_step atmospheric_data) 0

/-- The beach metadata row handed to the builder (`None`-valued and
absent keys are collapsed to `none`, matching the `.get` accesses). -/
structure BeachData where
  praia_id : Option ℤ
  id : Option ℤ
  nome : Option String
  nome_2 : Option String
  orientacao : Option ℤ
  nome_do_mapa : Option String
  dt_mapa_atualizado : Option String

structure ForecastObj where
  maxHeight : ℚ
  maxEnergy : ℚ
  maxPower : ℚ
  maxWind : ℤ
  forecastMapUrl : Option String
  days : List Day
deriving DecidableEq

structure Response where
  id : String
  date : String
  type : String
  name : String
  orientation : ℤ
  forecast : ForecastObj
deriving DecidableEq

/-- `ForecastBuilder.build_forecast`.  `none` models an exception from
the parse escaping to the caller. -/
def build_forecast (today : Date) (beach_data : BeachData) (forecast_type : String)
    (atmospheric_data oceanic_data : Option Blob) : Option Response := do
  let ocean_dados := dadosOf oceanic_data
  let date_str :=
    toString (ocean_dados.ano.getD today.year) ++ "-"
      ++ toString (ocean_dados.mes.getD today.month) ++ "-"
      ++ toString (ocean_dados.dia.getD today.day)
  let beach_orientation :=
    match beach_data.orientacao with
    | some n => if n ≠ 0 then some n else none
    | none => none
  let days ← parse_days today atmospheric_data oceanic_data beach_orientation forecast_type
  let max_height := get_max_height ocean_dados "v"
  let max_energy := get_max_value ocean_dados "total_energy" "v" false
  let max_power := get_max_value ocean_dados "total_power" "v" true
  let atmos_dados := dadosOf atmospheric_data
  let max_wind := get_max_wind atmos_dados
  let forecastMapUrl :=
    match beach_data.nome_do_mapa with
    | some map_name =>
      if map_name ≠ "" then
        some ("https://surfguru.space/mapas/" ++ map_name
          ++ beach_data.dt_mapa_atualizado.getD "" ++ ".png")
      else none
    | none => none
  pure
    { id :=
        match beach_data.praia_id with
        | some n => toString n
        | none =>
          match beach_data.id with
          | some n => toString n
          | none => "",
      date := date_str,
      type := forecast_type,
      name :=
        match beach_data.nome with
        | some s => s
        | none => beach_data.nome_2.getD "",
      orientation := beach_orientation.getD 0,
      forecast :=
        { maxHeight := max_height, maxEnergy := max_energy, maxPower := max_power,
          maxWind := max_wind, forecastMapUrl := forecastMapUrl, days := days } }

/-! ### legacy.py handler (surf branch) -/

inductive ApiResult where
  | success (body : Response)
  | badRequest (msg : String)
  | notFound (msg : String)
  | serverError (msg : String)
deriving DecidableEq

def statusCode : ApiResult → ℕ
  | ApiResult.success _ => 200
  | ApiResult.badRequest _ => 400
  | ApiResult.notFound _ => 404
  | ApiResult.serverError _ => 500

/-- `handle_surf_spot_forecast` of legacy.py, with the DB row and the
two fetched blobs as parameters (the fetches are I/O; a swallowed fetch
failure arrives here as `none`). -/
def handle_surf_spot_forecast (today : Date) (beach_row : Option BeachData)
    (atmospheric_data oceanic_data : Option Blob) : ApiResult :=
  match beach_row with
  | none => ApiResult.notFound "beach not found"
  | some beach =>
    let oceanOk :=
      match oceanic_data with
      | some b => b.dados.isSome
      | none => false
    if !oceanOk then ApiResult.notFound "forecast data not found"
    else
      match build_forecast today beach "SURF" atmospheric_data oceanic_data with
      | some forecast => ApiResult.success forecast
      | none => ApiResult.serverError "failed to parse forecast data"

/-! ### Observation helpers for the statements -/

/-- All emitted `waves.totalHeight.value` numbers of a response, over
every (day, slot) pair. -/
def allTotalHeights (days : List Day) : List ℚ :=
  (days.map (fun d => d.hours.map (fun h => h.waves.totalHeight.value))).flatten

/-- Maximum of a list of rationals, 0 for the empty list (the aggregator
also starts its running maximum at 0). -/
def qmax (l : List ℚ) : ℚ :=
  l.foldl max 0

/-- Well-formedness of one oceanic day-blob used by the amended C1
statement: if the blob is non-empty, its first (`wave_height`) row has
at most the 8 slots of the format and every cell parses as a
non-negative integer. -/
def goodRow (ds : String) : Prop :=
  ds ≠ "" →
    (pySplit ((pySplit ds ';').headD "") ':').length ≤ 8 ∧
      ∀ c ∈ pySplit ((pySplit ds ';').headD "") ':', 0 ≤ (str_to_int? c).getD (-1)

def defaultChannel : WaveChannel :=
  { value := 0, period := 0, direction := "", directionDegree := 0, power := 0, energy := 0 }

def defaultHour : Hour :=
  { hour := "",
    waves := { totalHeight := defaultChannel, windseas := defaultChannel,
               swellA := defaultChannel, swellB := defaultChannel },
    winds := { coast := { directionDegree := 0, wind := 0, windGust := 0, pressure := "",
                          type := "", direction := "" },
               sea := { direction := 0, wind := 0 } },
    atmospheric := { pressure := 0, temperature := 0, clouds := 0, precipitation := 0,
                     stormPotential := 0 } }

def defaultDay : Day :=
  { day := "", hours := [], tides := [] }

def defaultResponse : Response :=
  { id := "", date := "", type := "", name := "", orientation := 0,
    forecast := { maxHeight := 0, maxEnergy := 0, maxPower := 0, maxWind := 0,
                  forecastMapUrl := none, days := [] } }

/-! ### Concrete inputs used by counterexamples and witnesses -/

def today0 : Date :=
  { year := 2000, month := 1, day := 1 }

/-- A surf spot whose stored orientation is 92 degrees. -/
def beach92 : BeachData :=
  { praia_id := some 1, id := some 1, nome := some "Maracaipe", nome_2 := none,
    orientacao := some 92, nome_do_mapa := none, dt_mapa_atualizado := none }

/-- A surf spot whose stored orientation is exactly 0 degrees. -/
def beachZero : BeachData :=
  { praia_id := some 1, id := some 1, nome := some "Maracaipe", nome_2 := none,
    orientacao := some 0, nome_do_mapa := none, dt_mapa_atualizado := none }

/-- Oceanic `dados` with one day of wave heights and a beach overlay
whose heights differ (for C1). -/
def dadosOverlay : Dados :=
  { ano := some 2026, mes := some 3, dia := some 1,
    v := fun i => if i = 0 then some "15:14:13:12:11:10:9:8" else none,
    s := fun i => if i = 0 then some "99:98:97:96:95:94:93:92" else none }

/-- Oceanic `dados` with one plain day and no overlay (for C3/C9). -/
def dadosPlain : Dados :=
  { ano := some 2026, mes := some 3, dia := some 1,
    v := fun i => if i = 0 then some "15:14:13:12:11:10:9:8" else none,
    s := fun _ => none }

/-- Oceanic `dados` whose day-0 blob carries a non-integer cell in its
third (`primary_direction`) row (for C2). -/
def dadosBadCell : Dados :=
  { ano := none, mes := none, dia := none,
    v := fun i => if i = 0 then some "5;5;x" else none,
    s := fun _ => none }

/-- A full 24-row oceanic matrix with every cell "8" (for C5). -/
def ovFull : List (List String) :=
  List.replicate 24 (List.replicate 8 "8")

/-- A beach overlay matrix with only one row (for C5). -/
def bvOneRow : List (List String) :=
  [["12", "11", "10", "9", "8", "7", "6", "5"]]

/-- The waves record produced at slot 0 from `ovFull` with the short
overlay `bvOneRow` (for the C5 witness). -/
def c5waves : Waves :=
  (parse_waves ovFull (some bvOneRow) 0).getD defaultHour.waves

/-- The response assembled from `dadosPlain` for `beach92` with the
atmospheric blob missing (for the C3 and C9 witnesses). -/
def respPlain : Response :=
  (build_forecast today0 beach92 "SURF" none (some { dados := some dadosPlain })).getD
    defaultResponse

/-- The days assembled from `dadosPlain` in regional mode (for the C7
witness). -/
def c7days : List Day :=
  (parse_days today0 none (some { dados := some dadosPlain }) none "OCEANIC").getD []

/-! ## Theorems

First, the reducible rational operations agree with the field
operations of `ℚ`. -/

theorem num_eq_mul_den (a : ℚ) : (a.num : ℚ) = a * (a.den : ℚ) := by
  have hden : ((a.den : ℚ)) ≠ 0 := Nat.cast_ne_zero.mpr a.den_nz
  exact (div_eq_iff hden).mp (Rat.num_div_den a)

theorem qdiv_eq_div (a b : ℚ) : qdiv a b = a / b := by
  rcases eq_or_ne b 0 with hb | hb
  · subst hb
    show Rat.divInt (a.num * (1 : ℕ)) (a.den * 0) = a / 0
    simp
  · have hbn : (b.num : ℚ) ≠ 0 := by
      exact_mod_cast Rat.num_ne_zero.mpr hb
    have hden : ((a.den : ℚ)) ≠ 0 := Nat.cast_ne_zero.mpr a.den_nz
    have h1 : (((a.den : ℤ) * b.num : ℤ) : ℚ) ≠ 0 := by
      push_cast
      exact mul_ne_zero hden hbn
    rw [qdiv, Rat.divInt_eq_div, div_eq_div_iff h1 hb]
    push_cast
    rw [num_eq_mul_den a, num_eq_mul_den b]
    ring

theorem qadd_eq_add (a b : ℚ) : qadd a b = a + b := by
  rw [qadd, Rat.add_def' a b, show ((a.den : ℤ) * b.den) = ((a.den * b.den : ℕ) : ℤ) by push_cast; ring]
  exact Rat.divInt_ofNat _ _

theorem qsub_eq_sub (a b : ℚ) : qsub a b = a - b := by
  rw [qsub, Rat.sub_def' a b, show ((a.den : ℤ) * b.den) = ((a.den * b.den : ℕ) : ℤ) by push_cast; ring]
  exact Rat.divInt_ofNat _ _

theorem qmul_eq_mul (a b : ℚ) : qmul a b = a * b := by
  rw [qmul, Rat.mul_def a b, Rat.normalize_eq_mkRat,
    show ((a.den : ℤ) * b.den) = ((a.den * b.den : ℕ) : ℤ) by push_cast; ring]
  exact Rat.divInt_ofNat _ _

/-- C4 counterexample: adding a full turn to the wind bearing changes
the classification at orientation 0, wind 359. -/
theorem c4_counterexample :
    get_wind_type_core 0 359 = "ONSHORE" ∧
      get_wind_type_core 0 (359 + 360) = "OFFSHORE" ∧
      get_wind_type_core 0 (359 + 360) ≠ get_wind_type_core 0 359 := by
  refine ⟨by decide, by decide, by decide⟩

/-- C4 (amended): for integer orientation `o` and wind bearing `w` whose
difference is at most a half turn (`|o − w| ≤ 180`, which holds in
particular for in-range bearings on the same side of the renormalization
step), `classify(o, w) = classify(o + 360, w) = classify(o, w + 360)`.
The single-step renormalization of the source breaks the identity
outside this band (see the counterexample). -/
theorem c4_period_invariance (o w : ℤ) (h : (o - w).natAbs ≤ 180) :
    get_wind_type_core (o + 360) w = get_wind_type_core o w ∧
      get_wind_type_core o (w + 360) = get_wind_type_core o w := by
  simp only [get_wind_type_core]
  constructor <;>
    · split_ifs <;> first | rfl | omega

/-- C4 witness: the amended theorem applied at `o = 90`, `w = 270`. -/
theorem c4_witness :
    ((90 - 270 : ℤ)).natAbs ≤ 180 ∧
      (get_wind_type_core (90 + 360) 270 = get_wind_type_core 90 270 ∧
        get_wind_type_core 90 (270 + 360) = get_wind_type_core 90 270) :=
  ⟨by decide, c4_period_invariance 90 270 (by decide)⟩

/-- C6 counterexample: the compass lookup is not total — on the float
NaN (or a string that parses to NaN or infinity) the quadrant arithmetic
yields NaN and `int(nan)` raises an uncaught `ValueError` (`none`),
instead of returning "N". -/
theorem c6_counterexample :
    get_direction (PyVal.float PyFloat.nan) = none ∧
      get_direction (PyVal.str "nan") = none ∧
      get_direction (PyVal.str "inf") = none := by
  refine ⟨by decide, by decide, by decide⟩

/-- C6 (amended): for nil or non-numeric input — anything whose float
parse fails — the compass lookup returns "N", the 0-degree label,
without failing.  (On NaN/infinite input it raises; see the
counterexample.) -/
theorem c6_nonnumeric_north (v : PyVal) (h : pyFloatOf? v = none) :
    get_direction v = some "N" := by
  unfold get_direction normalize_degrees
  rw [h]
  decide

/-- C6 witness: the amended theorem applied to the non-numeric string
"abc". -/
theorem c6_witness :
    pyFloatOf? (PyVal.str "abc") = none ∧ get_direction (PyVal.str "abc") = some "N" :=
  ⟨by decide, c6_nonnumeric_north (PyVal.str "abc") (by decide)⟩

/-- `List.filterMap` collapses to `List.map` when the function is
everywhere `some`. -/
theorem list_filterMap_eq_map {α β : Type} {f : α → Option β} {g : α → β}
    (l : List α) (h : ∀ a ∈ l, f a = some (g a)) : l.filterMap f = l.map g := by
  induction l with
  | nil => rfl
  | cons x xs ih =>
    rw [List.filterMap_cons, h x (by simp), List.map_cons,
      ih (fun a ha => h a (by simp [ha]))]

/-- C8: tide decoding.  A string shorter than 6 yields `[]`; otherwise
one entry per complete 6-character group at positions 0, 6, 12, …, with
`time = s[i] s[i+1] : s[i+2] s[i+3]` and `height = s[i+4] . s[i+5]`;
a trailing run shorter than 6 characters is ignored. -/
theorem c8_tides_decoding (s : String) :
    (s.length < 6 → parse_tides s = []) ∧
      (parse_tides s).length = s.length / 6 ∧
      ∀ j, j < s.length / 6 →
        (parse_tides s).getD j { time := "", height := "" } =
          { time := String.mk [s.data.getD (6 * j) ' ', s.data.getD (6 * j + 1) ' ', ':',
                               s.data.getD (6 * j + 2) ' ', s.data.getD (6 * j + 3) ' '],
            height := String.mk [s.data.getD (6 * j + 4) ' ', '.', s.data.getD (6 * j + 5) ' '] } := by
  by_cases hs : s.length < 6
  · have hdiv : s.length / 6 = 0 := Nat.div_eq_of_lt hs
    refine ⟨fun _ => by rw [parse_tides, if_pos hs], ?_, ?_⟩
    · rw [parse_tides, if_pos hs, hdiv]
      rfl
    · intro j hj
      rw [hdiv] at hj
      exact absurd hj (by omega)
  · have key : parse_tides s =
        (List.range (s.length / 6)).map (fun i =>
          { time := String.mk [s.data.getD (i * 6) ' ', s.data.getD (i * 6 + 1) ' ', ':',
                               s.data.getD (i * 6 + 2) ' ', s.data.getD (i * 6 + 3) ' '],
            height := String.mk [s.data.getD (i * 6 + 4) ' ', '.',
                                 s.data.getD (i * 6 + 5) ' '] }) := by
      rw [parse_tides, if_neg hs]
      refine list_filterMap_eq_map _ (fun i hi => ?_)
      rw [List.mem_range] at hi
      have hle : i * 6 + 6 ≤ s.length := by omega
      exact if_pos hle
    refine ⟨fun hlt => absurd hlt hs, ?_, ?_⟩
    · rw [key, List.length_map, List.length_range]
    · intro j hj
      rw [key, List.getD_eq_getElem?_getD, List.getElem?_map, List.getElem?_range hj]
      simp [Nat.mul_comm]

/-- C8 witness: the theorem applied to a 13-character tide string — two
complete groups decoded, the trailing character ignored. -/
theorem c8_witness :
    1 < "0500151130087".length / 6 ∧
      (parse_tides "0500151130087").getD 1 { time := "", height := "" } =
        { time := "11:30", height := "0.8" } := by
  refine ⟨by decide, ?_⟩
  rw [(c8_tides_decoding "0500151130087").2.2 1 (by decide)]
  decide

/-- C2: a non-integer slot cell in a projected integer field is NOT
recovered: `int("x")` in `parse_waves` raises a `ValueError` that
escapes the hour projection (`none`), and the surf handler turns it
into a 500 response — instead of the claimed fallback to the type-zero
with a normal response.  This contradicts the lenient-projection design
implemented everywhere else (`divide_by_ten` and `parse_atmospheric`
catch `ValueError`; the `safe_get` helpers default out-of-range reads),
so the code, not the claim, is in error. -/
theorem c2_nonint_cell_raises :
    parse_waves [["5"], ["5"], ["x"]] none 0 = none ∧
      handle_surf_spot_forecast today0 (some beach92) none (some { dados := some dadosBadCell })
        = ApiResult.serverError "failed to parse forecast data" ∧
      statusCode (handle_surf_spot_forecast today0 (some beach92) none
        (some { dados := some dadosBadCell })) = 500 := by
  refine ⟨by decide, by decide, by decide⟩

/-- Deconstruct a successful `wave_channel`: its `value` is whatever
`get_wave_value` produced. -/
theorem wave_channel_value_eq {ov : List (List String)} {bv : Option (List (List String))}
    {k1 k2 k3 k4 k5 k6 : String} {idx : ℕ} {ch : WaveChannel}
    (h : wave_channel ov bv k1 k2 k3 k4 k5 k6 idx = some ch) :
    ∃ v, get_wave_value ov bv k1 k2 idx true = some v ∧ ch.value = v := by
  unfold wave_channel at h
  simp only [bind, Option.bind_eq_some, Option.pure_def, Option.some.injEq] at h
  obtain ⟨v, hv, dir, hdir, dd, hdd, en, hen, hrec⟩ := h
  exact ⟨v, hv, by rw [← hrec]⟩

/-- A truthy (non-empty) beach overlay sources the height from the
overlay row of the channel. -/
theorem get_wave_value_beach (ov bv : List (List String)) (k1 k2 : String) (idx : ℕ)
    (hne : bv ≠ []) :
    get_wave_value ov (some bv) k1 k2 idx true =
      some (divide_by_ten (safe_get bv (dget BEACH_VARIABLES k2) idx "0")) := by
  unfold get_wave_value
  simp [hne]

/-- C5 counterexample: with a one-row beach overlay over an oceanic
matrix whose every cell is "8", the emitted swellA/swellB heights are 0,
not the oceanic 0.8 claimed by the fall-through reading. -/
theorem c5_counterexample :
    (parse_waves ovFull (some bvOneRow) 0).map
        (fun w => (w.swellA.value, w.swellB.value, w.totalHeight.value))
      = some (0, 0, Rat.divInt 12 10) ∧
      divide_by_ten (safe_get ovFull (dget OCEAN_VARIABLES "swell_a_height") 0 "0")
        = Rat.divInt 8 10 ∧
      (0 : ℚ) ≠ Rat.divInt 8 10 := by
  refine ⟨by decide, by decide, by decide⟩

/-- C5 (amended): when a beach overlay is present (truthy) but has
fewer than 4 rows, every channel whose overlay row is missing —
`windseas` (overlay row 1), `swellA` (row 2) and `swellB` (row 3), for
overlays of at most 1, 2 and 3 rows respectively — is emitted with the
type-zero height 0.0: `safe_get` defaults the missing row to "0", and
the value does NOT fall through to the oceanic row.  (Row 0,
`totalHeight`, is always present in a truthy overlay.) -/
theorem c5_short_overlay_zero (ov bv : List (List String)) (idx : ℕ) (w : Waves)
    (hne : bv ≠ []) (hlen : bv.length < 4)
    (h : parse_waves ov (some bv) idx = some w) :
    (bv.length ≤ 1 → w.windseas.value = 0) ∧
      (bv.length ≤ 2 → w.swellA.value = 0) ∧
      (bv.length ≤ 3 → w.swellB.value = 0) := by
  unfold parse_waves at h
  simp only [bind, Option.bind_eq_some, Option.pure_def, Option.some.injEq] at h
  obtain ⟨th, hth, ws, hws, sa, hsa, sb, hsb, hrec⟩ := h
  obtain ⟨vw, hvw, hvweq⟩ := wave_channel_value_eq hws
  obtain ⟨va, hva, hvaeq⟩ := wave_channel_value_eq hsa
  obtain ⟨vb, hvb, hvbeq⟩ := wave_channel_value_eq hsb
  rw [get_wave_value_beach ov bv _ _ idx hne, Option.some.injEq] at hvw hva hvb
  subst hrec
  refine ⟨?_, ?_, ?_⟩
  · intro hl
    have hget : bv.get? 1 = none := List.get?_eq_none.mpr (by omega)
    have hsafe : safe_get bv (dget BEACH_VARIABLES "windseas_height") idx "0" = "0" := by
      unfold safe_get
      rw [show dget BEACH_VARIABLES "windseas_height" = 1 from rfl, hget]
    show ws.value = 0
    rw [hvweq, ← hvw, hsafe]
    decide
  · intro hl
    have hget : bv.get? 2 = none := List.get?_eq_none.mpr (by omega)
    have hsafe : safe_get bv (dget BEACH_VARIABLES "primary_swell_height") idx "0" = "0" := by
      unfold safe_get
      rw [show dget BEACH_VARIABLES "primary_swell_height" = 2 from rfl, hget]
    show sa.value = 0
    rw [hvaeq, ← hva, hsafe]
    decide
  · intro hl
    have hget : bv.get? 3 = none := List.get?_eq_none.mpr (by omega)
    have hsafe : safe_get bv (dget BEACH_VARIABLES "secondary_swell_height") idx "0" = "0" := by
      unfold safe_get
      rw [show dget BEACH_VARIABLES "secondary_swell_height" = 3 from rfl, hget]
    show sb.value = 0
    rw [hvbeq, ← hvb, hsafe]
    decide

/-- C5 witness: the amended theorem applied to the concrete one-row
overlay, whose missing rows 1, 2 and 3 all zero their channel. -/
theorem c5_witness :
    bvOneRow ≠ [] ∧ bvOneRow.length < 4 ∧
      parse_waves ovFull (some bvOneRow) 0 = some c5waves ∧
      ((bvOneRow.length ≤ 1 → c5waves.windseas.value = 0) ∧
        (bvOneRow.length ≤ 2 → c5waves.swellA.value = 0) ∧
        (bvOneRow.length ≤ 3 → c5waves.swellB.value = 0)) :=
  ⟨by decide, by decide, by decide,
    c5_short_overlay_zero ovFull bvOneRow 0 c5waves (by decide) (by decide) (by decide)⟩

/-! ### Structure of the hour and day loops -/

theorem hours_loop_length {bo : Option ℤ} {ov : List (List String)}
    {bv av : Option (List (List String))} {ft : String} :
    ∀ {l : List (ℕ × ℕ)} {hs : List Hour},
      hours_loop bo ov bv av ft l = some hs → hs.length = l.length := by
  intro l
  induction l with
  | nil =>
    intro hs h
    simp only [hours_loop, Option.some.injEq] at h
    simp [← h]
  | cons p rest ih =>
    intro hs h
    obtain ⟨idx, hour⟩ := p
    unfold hours_loop at h
    simp only [bind, Option.bind_eq_some, Option.pure_def, Option.some.injEq] at h
    obtain ⟨waves, _, winds, _, tail, htail, hcons⟩ := h
    rw [← hcons, List.length_cons, List.length_cons, ih htail]

theorem hours_loop_winds {bo : Option ℤ} {ov : List (List String)}
    {bv av : Option (List (List String))} {ft : String} :
    ∀ {l : List (ℕ × ℕ)} {hs : List Hour},
      hours_loop bo ov bv av ft l = some hs →
      ∀ x ∈ hs, ∃ idx, parse_winds bo av ov ft idx = some x.winds := by
  intro l
  induction l with
  | nil =>
    intro hs h
    simp only [hours_loop, Option.some.injEq] at h
    intro x hx
    rw [← h] at hx
    exact absurd hx (List.not_mem_nil x)
  | cons p rest ih =>
    intro hs h
    obtain ⟨idx, hour⟩ := p
    unfold hours_loop at h
    simp only [bind, Option.bind_eq_some, Option.pure_def, Option.some.injEq] at h
    obtain ⟨waves, _, winds, hw, tail, htail, hcons⟩ := h
    intro x hx
    rw [← hcons, List.mem_cons] at hx
    rcases hx with hx | hx
    · exact ⟨idx, by rw [hx]; exact hw⟩
    · exact ih htail x hx

/-- `parse_day_variables` never returns an empty (falsy) matrix: a
split always has at least one piece. -/
theorem parse_day_variables_ne_empty {s : String} {m : List (List String)}
    (h : parse_day_variables s = some m) : ¬m.isEmpty = true := by
  unfold parse_day_variables at h
  split at h
  · exact absurd h (by simp)
  · simp only [Option.some.injEq] at h
    rw [← h]
    simp only [List.isEmpty_iff, List.map_eq_nil_iff, pySplit, List.splitOn]
    exact fun hc => List.splitOnP_ne_nil _ _ hc

theorem days_loop_length {base : Date} {ad od : Dados} {bo : Option ℤ} {ft : String} :
    ∀ {l : List ℕ} {ds : List Day},
      days_loop base ad od bo ft l = some ds → ds.length = l.length := by
  intro l
  induction l with
  | nil =>
    intro ds h
    simp only [days_loop, Option.some.injEq] at h
    simp [← h]
  | cons i rest ih =>
    intro ds h
    unfold days_loop at h
    simp only [bind, Option.bind_eq_some, Option.pure_def, Option.some.injEq] at h
    obtain ⟨day, _, tail, htail, hcons⟩ := h
    rw [← hcons, List.length_cons, List.length_cons, ih htail]

theorem days_loop_get? {base : Date} {ad od : Dados} {bo : Option ℤ} {ft : String} :
    ∀ {l : List ℕ} {ds : List Day},
      days_loop base ad od bo ft l = some ds →
      ∀ k, k < l.length →
        ∃ day, ds.get? k = some day ∧
          parse_one_day base ad od bo ft (l.getD k 0) = some day := by
  intro l
  induction l with
  | nil =>
    intro ds h k hk
    exact absurd hk (by simp)
  | cons i rest ih =>
    intro ds h k hk
    unfold days_loop at h
    simp only [bind, Option.bind_eq_some, Option.pure_def, Option.some.injEq] at h
    obtain ⟨day, hday, tail, htail, hcons⟩ := h
    cases k with
    | zero => exact ⟨day, by rw [← hcons]; rfl, hday⟩
    | succ k =>
      obtain ⟨d, hd, hpd⟩ := ih htail k (by simpa using hk)
      exact ⟨d, by rw [← hcons]; simpa using hd, hpd⟩

theorem days_loop_mem {base : Date} {ad od : Dados} {bo : Option ℤ} {ft : String} :
    ∀ {l : List ℕ} {ds : List Day},
      days_loop base ad od bo ft l = some ds →
      ∀ day ∈ ds, ∃ i ∈ l, parse_one_day base ad od bo ft i = some day := by
  intro l
  induction l with
  | nil =>
    intro ds h day hday
    simp only [days_loop, Option.some.injEq] at h
    rw [← h] at hday
    exact absurd hday (List.not_mem_nil day)
  | cons i rest ih =>
    intro ds h day hday
    unfold days_loop at h
    simp only [bind, Option.bind_eq_some, Option.pure_def, Option.some.injEq] at h
    obtain ⟨d, hd, tail, htail, hcons⟩ := h
    rw [← hcons, List.mem_cons] at hday
    rcases hday with hday | hday
    · exact ⟨i, List.mem_cons_self i rest, by rw [← hday] at hd; exact hd⟩
    · obtain ⟨j, hj, hpd⟩ := ih htail day hday
      exact ⟨j, List.mem_cons_of_mem i hj, hpd⟩

/-! ### Deconstructing one parsed day -/

theorem parse_one_day_day {base : Date} {ad od : Dados} {bo : Option ℤ} {ft : String}
    {i : ℕ} {day : Day} (h : parse_one_day base ad od bo ft i = some day) :
    day.day = isoDate (addDays base i) := by
  unfold parse_one_day at h
  cases hov : parse_day_variables ((od.v i).getD "") with
  | none =>
    rw [hov] at h
    simp only [Option.some.injEq] at h
    rw [← h]
  | some ov =>
    rw [hov] at h
    dsimp only at h
    by_cases he : ov.isEmpty
    · rw [if_pos he] at h
      simp only [Option.some.injEq] at h
      rw [← h]
    · rw [if_neg he] at h
      simp only [bind, Option.bind_eq_some, Option.pure_def, Option.some.injEq] at h
      obtain ⟨hs, _, hrec⟩ := h
      rw [← hrec]

theorem parse_one_day_empty {base : Date} {ad od : Dados} {bo : Option ℤ} {ft : String}
    {i : ℕ} {day : Day} (h : parse_one_day base ad od bo ft i = some day)
    (hov : parse_day_variables ((od.v i).getD "") = none) :
    day.hours = [] ∧ day.tides = [] := by
  unfold parse_one_day at h
  rw [hov] at h
  simp only [Option.some.injEq] at h
  rw [← h]
  exact ⟨rfl, rfl⟩

theorem parse_one_day_hours8 {base : Date} {ad od : Dados} {bo : Option ℤ} {ft : String}
    {i : ℕ} {day : Day} {m : List (List String)}
    (h : parse_one_day base ad od bo ft i = some day)
    (hov : parse_day_variables ((od.v i).getD "") = some m) :
    day.hours.length = 8 := by
  unfold parse_one_day at h
  rw [hov] at h
  dsimp only at h
  rw [if_neg (parse_day_variables_ne_empty hov)] at h
  simp only [bind, Option.bind_eq_some, Option.pure_def, Option.some.injEq] at h
  obtain ⟨hs, hhs, hrec⟩ := h
  rw [← hrec]
  show hs.length = 8
  rw [hours_loop_length hhs]
  decide

theorem parse_one_day_tides {base : Date} {ad od : Dados} {bo : Option ℤ} {ft : String}
    {i : ℕ} {day : Day} (h : parse_one_day base ad od bo ft i = some day) (hi : i ≠ 0) :
    day.tides = [] := by
  unfold parse_one_day at h
  cases hov : parse_day_variables ((od.v i).getD "") with
  | none =>
    rw [hov] at h
    simp only [Option.some.injEq] at h
    rw [← h]
  | some ov =>
    rw [hov] at h
    dsimp only at h
    by_cases he : ov.isEmpty
    · rw [if_pos he] at h
      simp only [Option.some.injEq] at h
      rw [← h]
    · rw [if_neg he] at h
      simp only [bind, Option.bind_eq_some, Option.pure_def, Option.some.injEq] at h
      obtain ⟨hs, _, hrec⟩ := h
      rw [← hrec]
      show (if i = 0 ∧ dget OCEAN_VARIABLES "tides" < ov.length then _ else []) = []
      rw [if_neg (by simp [hi])]

theorem parse_one_day_winds {base : Date} {ad od : Dados} {bo : Option ℤ} {ft : String}
    {i : ℕ} {day : Day} (h : parse_one_day base ad od bo ft i = some day) :
    ∀ x ∈ day.hours, ∃ ov idx,
      parse_winds bo (parse_day_variables ((ad.v i).getD "")) ov ft idx = some x.winds := by
  unfold parse_one_day at h
  cases hov : parse_day_variables ((od.v i).getD "") with
  | none =>
    rw [hov] at h
    simp only [Option.some.injEq] at h
    rw [← h]
    intro x hx
    exact absurd hx (List.not_mem_nil x)
  | some ov =>
    rw [hov] at h
    dsimp only at h
    by_cases he : ov.isEmpty
    · rw [if_pos he] at h
      simp only [Option.some.injEq] at h
      rw [← h]
      intro x hx
      exact absurd hx (List.not_mem_nil x)
    · rw [if_neg he] at h
      simp only [bind, Option.bind_eq_some, Option.pure_def, Option.some.injEq] at h
      obtain ⟨hs, hhs, hrec⟩ := h
      rw [← hrec]
      intro x hx
      obtain ⟨idx, hw⟩ := hours_loop_winds hhs x hx
      exact ⟨ov, idx, hw⟩

/-! ### Deconstructing parse_winds -/

/-- With no atmospheric matrix, every `winds.coast` projection is built
from the default cell "0": the numeric fields are 0, the pressure
string is "0", the compass label is "N", and the type is the classifier
applied to wind bearing 0 (when in SURF mode with a known orientation),
or "OCEANIC" otherwise. -/
theorem parse_winds_no_atmos {bo : Option ℤ} {ov : List (List String)} {ft : String}
    {idx : ℕ} {w : Winds} (h : parse_winds bo none ov ft idx = some w) :
    w.coast = { directionDegree := 0, wind := 0, windGust := 0, pressure := "0",
                type := match bo with
                        | some o => if ft = "SURF" then get_wind_type o "0" else "OCEANIC"
                        | none => "OCEANIC",
                direction := "N" } := by
  unfold parse_winds at h
  simp only [bind, Option.bind_eq_some, Option.pure_def, Option.some.injEq] at h
  obtain ⟨dd, hdd, wi, hwi, gu, hgu, dir, hdir, sd, _, sw, _, hrec⟩ := h
  have hdd0 : dd = 0 := (Option.some.inj (show some (0 : ℤ) = some dd from hdd)).symm
  have hwi0 : wi = 0 := (Option.some.inj (show some (0 : ℤ) = some wi from hwi)).symm
  have hgu0 : gu = 0 := (Option.some.inj (show some (0 : ℤ) = some gu from hgu)).symm
  have hdirN : dir = "N" := (Option.some.inj (show some "N" = some dir from hdir)).symm
  subst hrec hdd0 hwi0 hgu0 hdirN
  cases bo <;> rfl

/-- With no beach orientation, the wind type is "OCEANIC" whatever the
atmospheric data. -/
theorem parse_winds_type_oceanic {av : Option (List (List String))} {ov : List (List String)}
    {ft : String} {idx : ℕ} {w : Winds} (h : parse_winds none av ov ft idx = some w) :
    w.coast.type = "OCEANIC" := by
  unfold parse_winds at h
  simp only [bind, Option.bind_eq_some, Option.pure_def, Option.some.injEq] at h
  obtain ⟨dd, _, wi, _, gu, _, dir, _, sd, _, sw, _, hrec⟩ := h
  rw [← hrec]

/-- A computation guarded by `if c then none else x` that returned a
value did not take the `none` branch. -/
theorem if_none_eq_some {α : Type} {c : Prop} [inst : Decidable c] {x : Option α} {a : α}
    (h : (if c then none else x) = some a) : x = some a := by
  by_cases hc : c
  · rw [if_pos hc] at h
    exact absurd h (by simp)
  · rwa [if_neg hc] at h

/-- The run-time classifier at the default bearing "0": within the ±180
band it agrees with the integer core; outside it the string comparison
`TypeError` yields "OCEANIC". -/
theorem get_wind_type_zero (o : ℤ) :
    get_wind_type o "0" =
      (if 180 < o ∨ o < -180 then "OCEANIC" else get_wind_type_core o 0) := by
  have h0 : str_to_int? "0" = some 0 := by decide
  unfold get_wind_type
  rw [h0]
  dsimp only
  simp only [get_wind_type_core, sub_zero]
  split_ifs <;> rfl

/-! ### C3: missing atmospheric blob on a surf request -/

/-- C3 counterexample: with the atmospheric blob missing and a known
92-degree orientation, `winds.coast.type` of the first emitted hour is
"CROSSED" — the classifier runs against the default bearing "0" — not
the claimed "OCEANIC". -/
theorem c3_counterexample :
    (build_forecast today0 beach92 "SURF" none (some { dados := some dadosPlain })).map
        (fun r => ((r.forecast.days.headD defaultDay).hours.headD defaultHour).winds.coast.type)
      = some "CROSSED" ∧ "CROSSED" ≠ "OCEANIC" := by
  refine ⟨by decide, by decide⟩

/-- C3 (amended): a surf request with the oceanic blob present and the
atmospheric blob missing is answered with status 200; `maxWind` is 0 and
every `winds.coast` numeric field is 0 (pressure is the string "0") in
every hour of every day; but `winds.coast.type` is NOT unconditionally
"OCEANIC": against the default wind bearing 0 it is the threshold
classifier of the beach orientation whenever the orientation lies in
[-180, 180] (e.g. "CROSSED" for orientation 92), and "OCEANIC" — via
the renormalization `TypeError` — only outside that band. -/
theorem c3_missing_atmos (today : Date) (beach : BeachData) (o : ℤ) (ob : Blob) (r : Response)
    (ho : beach.orientacao = some o) (hoz : o ≠ 0)
    (hd : ob.dados.isSome = true)
    (hb : build_forecast today beach "SURF" none (some ob) = some r) :
    handle_surf_spot_forecast today (some beach) none (some ob) = ApiResult.success r ∧
      statusCode (handle_surf_spot_forecast today (some beach) none (some ob)) = 200 ∧
      r.forecast.maxWind = 0 ∧
      ∀ day ∈ r.forecast.days, ∀ x ∈ day.hours,
        x.winds.coast.directionDegree = 0 ∧ x.winds.coast.wind = 0 ∧
          x.winds.coast.windGust = 0 ∧ x.winds.coast.pressure = "0" ∧
          x.winds.coast.type =
            (if 180 < o ∨ o < -180 then "OCEANIC" else get_wind_type_core o 0) := by
  have hhandle : handle_surf_spot_forecast today (some beach) none (some ob)
      = ApiResult.success r := by
    unfold handle_surf_spot_forecast
    dsimp only
    rw [hd, hb]
    rfl
  unfold build_forecast at hb
  dsimp only at hb
  rw [ho] at hb
  dsimp only at hb
  rw [if_pos hoz] at hb
  simp only [bind, Option.bind_eq_some, Option.pure_def, Option.some.injEq] at hb
  obtain ⟨days, hdays, hrec⟩ := hb
  refine ⟨hhandle, by rw [hhandle]; rfl, ?_, ?_⟩
  · rw [← hrec]
    show get_max_wind (dadosOf none) = 0
    decide
  · intro day hday x hx
    have hday2 : day ∈ days := by rw [← hrec] at hday; exact hday
    unfold parse_days at hdays
    dsimp only at hdays
    replace hdays := if_none_eq_some hdays
    obtain ⟨i, _, hpd⟩ := days_loop_mem hdays day hday2
    obtain ⟨ov, idx, hw⟩ := parse_one_day_winds hpd x hx
    rw [show parse_day_variables (((dadosOf none).v i).getD "") = none from rfl] at hw
    have hcoast := parse_winds_no_atmos hw
    refine ⟨?_, ?_, ?_, ?_, ?_⟩
    · rw [hcoast]
    · rw [hcoast]
    · rw [hcoast]
    · rw [hcoast]
    · rw [hcoast]
      show get_wind_type o "0" = _
      exact get_wind_type_zero o

/-- C3 witness: the amended theorem applied to `beach92` with
`dadosPlain` and no atmospheric data. -/
theorem c3_witness :
    beach92.orientacao = some 92 ∧ (92 : ℤ) ≠ 0 ∧
      (Blob.mk (some dadosPlain)).dados.isSome = true ∧
      build_forecast today0 beach92 "SURF" none (some { dados := some dadosPlain })
        = some respPlain ∧
      (handle_surf_spot_forecast today0 (some beach92) none
          (some { dados := some dadosPlain }) = ApiResult.success respPlain ∧
        statusCode (handle_surf_spot_forecast today0 (some beach92) none
          (some { dados := some dadosPlain })) = 200 ∧
        respPlain.forecast.maxWind = 0 ∧
        ∀ day ∈ respPlain.forecast.days, ∀ x ∈ day.hours,
          x.winds.coast.directionDegree = 0 ∧ x.winds.coast.wind = 0 ∧
            x.winds.coast.windGust = 0 ∧ x.winds.coast.pressure = "0" ∧
            x.winds.coast.type =
              (if 180 < (92 : ℤ) ∨ (92 : ℤ) < -180 then "OCEANIC"
               else get_wind_type_core 92 0)) :=
  ⟨rfl, by decide, rfl, by decide,
    c3_missing_atmos today0 beach92 92 (Blob.mk (some dadosPlain)) respPlain rfl (by decide)
      rfl (by decide)⟩

/-! ### C7: response shape -/

/-- C7: an assembled day list always has exactly 15 entries; a day whose
v-blob is absent or empty yields an empty-day record (hours and tides
both `[]`) and is still counted; a day whose v-blob decodes yields
exactly 8 hour records; and tides can be non-empty only on day 0. -/
theorem c7_response_shape (today : Date) (atm oc : Option Blob) (bo : Option ℤ) (ft : String)
    (ds : List Day) (h : parse_days today atm oc bo ft = some ds) :
    ds.length = 15 ∧
      ∀ k day, ds.get? k = some day →
        (parse_day_variables (((dadosOf oc).v k).getD "") = none →
          day.hours = [] ∧ day.tides = []) ∧
        (∀ m, parse_day_variables (((dadosOf oc).v k).getD "") = some m →
          day.hours.length = 8) ∧
        (k ≠ 0 → day.tides = []) := by
  unfold parse_days at h
  dsimp only at h
  replace h := if_none_eq_some h
  have hlen : ds.length = 15 := by
    rw [days_loop_length h, List.length_range]
  refine ⟨hlen, ?_⟩
  intro k day hk
  have hklt : k < 15 := by
    obtain ⟨hlt, _⟩ := List.get?_eq_some.mp hk
    rw [hlen] at hlt
    exact hlt
  obtain ⟨day2, hday2, hpd⟩ := days_loop_get? h k (by simpa using hklt)
  rw [hk] at hday2
  have heq : day2 = day := Option.some.inj hday2.symm
  subst heq
  have hgetd : (List.range 15).getD k 0 = k := by
    rw [List.getD_eq_getElem?_getD, List.getElem?_range hklt]
    rfl
  rw [hgetd] at hpd
  exact ⟨fun hov => parse_one_day_empty hpd hov,
         fun m hov => parse_one_day_hours8 hpd hov,
         fun hkz => parse_one_day_tides hpd hkz⟩

/-- C7 witness: the theorem applied to the concrete regional parse of
`dadosPlain`. -/
theorem c7_witness :
    parse_days today0 none (some { dados := some dadosPlain }) none "OCEANIC" = some c7days ∧
      (c7days.length = 15 ∧
        ∀ k day, c7days.get? k = some day →
          (parse_day_variables (((dadosOf (some { dados := some dadosPlain })).v k).getD "")
              = none → day.hours = [] ∧ day.tides = []) ∧
          (∀ m, parse_day_variables
              (((dadosOf (some { dados := some dadosPlain })).v k).getD "") = some m →
            day.hours.length = 8) ∧
          (k ≠ 0 → day.tides = [])) :=
  ⟨by decide,
    c7_response_shape today0 none (some { dados := some dadosPlain }) none "OCEANIC" c7days
      (by decide)⟩

/-! ### C9: dates -/

/-- C9: the top-level `date` is the verbatim (un-padded) interpolation
of the wire `ano`/`mes`/`dia` numbers, while each per-day `day` field is
the zero-padded ISO date of day 0's calendar date plus the day index,
with natural rollover. -/
theorem c9_dates (today : Date) (beach : BeachData) (ft : String) (atm : Option Blob)
    (od : Dados) (a m d : ℤ) (r : Response)
    (ha : od.ano = some a) (hm : od.mes = some m) (hdia : od.dia = some d)
    (hv : validDate { year := a, month := m, day := d } = true)
    (hb : build_forecast today beach ft atm (some { dados := some od }) = some r) :
    r.date = toString a ++ "-" ++ toString m ++ "-" ++ toString d ∧
      ∀ k day, r.forecast.days.get? k = some day →
        day.day = isoDate (addDays { year := a, month := m, day := d } k) := by
  unfold build_forecast at hb
  dsimp only at hb
  simp only [dadosOf, Option.getD_some, ha, hm, hdia] at hb
  simp only [bind, Option.bind_eq_some, Option.pure_def, Option.some.injEq] at hb
  obtain ⟨days, hdays, hrec⟩ := hb
  constructor
  · rw [← hrec]
  · intro k day hk
    have hk2 : days.get? k = some day := by rw [← hrec] at hk; exact hk
    unfold parse_days at hdays
    dsimp only at hdays
    simp only [dadosOf, Option.getD_some, ha, hm, hdia] at hdays
    rw [if_pos hv] at hdays
    replace hdays := if_none_eq_some hdays
    have hklt : k < 15 := by
      obtain ⟨hlt, _⟩ := List.get?_eq_some.mp hk2
      rw [days_loop_length hdays, List.length_range] at hlt
      exact hlt
    obtain ⟨day2, hday2, hpd⟩ := days_loop_get? hdays k (by simpa using hklt)
    rw [hk2] at hday2
    have heq : day2 = day := Option.some.inj hday2.symm
    subst heq
    have hgetd : (List.range 15).getD k 0 = k := by
      rw [List.getD_eq_getElem?_getD, List.getElem?_range hklt]
      rfl
    rw [hgetd] at hpd
    exact parse_one_day_day hpd

/-- C9 witness: `ano=2026, mes=3, dia=1` gives the un-padded top-level
date "2026-3-1", day-0 "2026-03-01" and day-14 "2026-03-15". -/
theorem c9_witness :
    validDate { year := 2026, month := 3, day := 1 } = true ∧
      build_forecast today0 beach92 "SURF" none (some { dados := some dadosPlain })
        = some respPlain ∧
      respPlain.date = "2026-3-1" ∧
      (respPlain.forecast.days.getD 0 defaultDay).day = "2026-03-01" ∧
      (respPlain.forecast.days.getD 14 defaultDay).day = "2026-03-15" := by
  have H := c9_dates today0 beach92 "SURF" none dadosPlain 2026 3 1 respPlain rfl rfl rfl
    (by decide) (by decide)
  refine ⟨by decide, by decide, ?_, ?_, ?_⟩
  · rw [H.1]
    decide
  · have h0 : respPlain.forecast.days.get? 0
        = some (respPlain.forecast.days.getD 0 defaultDay) := by decide
    rw [H.2 0 _ h0]
    decide
  · have h14 : respPlain.forecast.days.get? 14
        = some (respPlain.forecast.days.getD 14 defaultDay) := by decide
    rw [H.2 14 _ h14]
    decide

/-! ### C10: orientation exactly 0 -/

/-- C10: a stored orientation of exactly 0 degrees is falsy and is
treated as unknown: the assembly is identical to that with no
orientation at all, the emitted `orientation` field is 0, and
`winds.coast.type` is "OCEANIC" in every hour — the classifier is never
applied. -/
theorem c10_zero_orientation (today : Date) (beach : BeachData) (ft : String)
    (atm oc : Option Blob) (h : beach.orientacao = some 0) :
    build_forecast today beach ft atm oc =
        build_forecast today { beach with orientacao := none } ft atm oc ∧
      ∀ r, build_forecast today beach ft atm oc = some r →
        r.orientation = 0 ∧
        ∀ day ∈ r.forecast.days, ∀ x ∈ day.hours, x.winds.coast.type = "OCEANIC" := by
  have horient : (match beach.orientacao with
      | some n => if n ≠ 0 then some n else none
      | none => none) = (none : Option ℤ) := by
    rw [h]
    simp
  constructor
  · unfold build_forecast
    dsimp only
    rw [horient]
  · intro r hb
    unfold build_forecast at hb
    dsimp only at hb
    rw [horient] at hb
    simp only [bind, Option.bind_eq_some, Option.pure_def, Option.some.injEq] at hb
    obtain ⟨days, hdays, hrec⟩ := hb
    constructor
    · rw [← hrec]
      rfl
    · intro day hday x hx
      have hday2 : day ∈ days := by rw [← hrec] at hday; exact hday
      unfold parse_days at hdays
      dsimp only at hdays
      replace hdays := if_none_eq_some hdays
      obtain ⟨i, _, hpd⟩ := days_loop_mem hdays day hday2
      obtain ⟨ov, idx, hw⟩ := parse_one_day_winds hpd x hx
      exact parse_winds_type_oceanic hw

/-- C10 witness: the theorem applied to `beachZero`. -/
theorem c10_witness :
    beachZero.orientacao = some 0 ∧
      (build_forecast today0 beachZero "SURF" none none =
          build_forecast today0 { beachZero with orientacao := none } "SURF" none none ∧
        ∀ r, build_forecast today0 beachZero "SURF" none none = some r →
          r.orientation = 0 ∧
          ∀ day ∈ r.forecast.days, ∀ x ∈ day.hours, x.winds.coast.type = "OCEANIC") :=
  ⟨rfl, c10_zero_orientation today0 beachZero "SURF" none none rfl⟩

/-! ### C1: the height aggregator versus the emitted heights -/

theorem pySplit_ne_nil (s : String) (sep : Char) : pySplit s sep ≠ [] := by
  simp only [ne_eq, pySplit, List.map_eq_nil_iff, List.splitOn]
  exact fun hc => List.splitOnP_ne_nil _ _ hc

/-- The running maximum of the aggregator never decreases. -/
theorem le_parse_int_max : ∀ (values : List String) (acc : ℤ), acc ≤ parse_int_max acc values := by
  intro values
  induction values with
  | nil => intro acc; exact le_refl acc
  | cons c rest ih =>
    intro acc
    have hstep : acc ≤ (match str_to_int? c with
        | some num_val => if acc < num_val then num_val else acc
        | none => acc) := by
      cases str_to_int? c with
      | none => exact le_refl acc
      | some n =>
        dsimp only
        split_ifs with hlt
        · exact le_of_lt hlt
        · exact le_refl acc
    exact le_trans hstep (ih _)

theorem qdiv10_max (a b : ℤ) :
    qdiv ((max a b : ℤ) : ℚ) 10 = max (qdiv ((a : ℤ) : ℚ) 10) (qdiv ((b : ℤ) : ℚ) 10) := by
  rcases le_total a b with hab | hab
  · rw [max_eq_right hab, max_eq_right]
    rw [qdiv_eq_div, qdiv_eq_div]
    have hq : ((a : ℤ) : ℚ) ≤ ((b : ℤ) : ℚ) := by exact_mod_cast hab
    linarith
  · rw [max_eq_left hab, max_eq_left]
    rw [qdiv_eq_div, qdiv_eq_div]
    have hq : ((b : ℤ) : ℚ) ≤ ((a : ℤ) : ℚ) := by exact_mod_cast hab
    linarith

theorem foldl_max_zeros (q : ℚ) (hq : 0 ≤ q) :
    ∀ l : List ℚ, (∀ x ∈ l, x = 0) → l.foldl max q = q := by
  intro l
  induction l with
  | nil => intro _; rfl
  | cons x xs ih =>
    intro hx
    rw [List.foldl_cons, hx x (List.mem_cons_self x xs), max_eq_left hq]
    exact ih (fun y hy => hx y (List.mem_cons_of_mem x hy))

/-- The heart of C1, per day: folding `max` over the 8 projected slot
heights of one row (missing slots defaulting to "0") is the aggregator's
integer scan of that row, scaled by 10 — provided the row has at most 8
cells, all parsing as non-negative integers. -/
theorem foldl_max_heights :
    ∀ (cells : List String) (k : ℕ) (acc : ℤ), 0 ≤ acc → cells.length ≤ k →
      (∀ c ∈ cells, 0 ≤ (str_to_int? c).getD (-1)) →
      List.foldl max (qdiv ((acc : ℤ) : ℚ) 10)
          ((List.range k).map (fun j => divide_by_ten (cells.getD j "0")))
        = qdiv ((parse_int_max acc cells : ℤ) : ℚ) 10 := by
  intro cells
  induction cells with
  | nil =>
    intro k acc hacc _ _
    have hq : 0 ≤ qdiv ((acc : ℤ) : ℚ) 10 := by
      rw [qdiv_eq_div]
      have : (0 : ℚ) ≤ ((acc : ℤ) : ℚ) := by exact_mod_cast hacc
      positivity
    rw [foldl_max_zeros _ hq]
    · rfl
    · intro x hx
      rw [List.mem_map] at hx
      obtain ⟨j, _, hj⟩ := hx
      rw [← hj]
      show divide_by_ten "0" = 0
      decide
  | cons c rest ih =>
    intro k acc hacc hlen hcells
    cases k with
    | zero => exact absurd hlen (by simp)
    | succ k =>
      have hc := hcells c (List.mem_cons_self c rest)
      cases hcase : str_to_int? c with
      | none => rw [hcase] at hc; norm_num at hc
      | some n =>
        have hn0 : 0 ≤ n := by rw [hcase] at hc; simpa using hc
        have hdbt : divide_by_ten c = qdiv ((n : ℤ) : ℚ) 10 := by
          unfold divide_by_ten
          rw [hcase]
          rfl
        have hif : (if acc < n then n else acc) = max acc n := by
          rcases lt_or_le acc n with hlt | hle
          · rw [if_pos hlt, max_eq_right (le_of_lt hlt)]
          · rw [if_neg (not_lt.mpr hle), max_eq_left hle]
        have hstep : parse_int_max acc (c :: rest) = parse_int_max (max acc n) rest := by
          unfold parse_int_max
          rw [List.foldl_cons, hcase]
          dsimp only
          rw [hif]
        rw [List.range_succ_eq_map, List.map_cons, List.foldl_cons, List.map_map, hstep]
        have hhead : max (qdiv ((acc : ℤ) : ℚ) 10) (divide_by_ten ((c :: rest).getD 0 "0"))
            = qdiv ((max acc n : ℤ) : ℚ) 10 := by
          rw [show (c :: rest).getD 0 "0" = c from rfl, hdbt, qdiv10_max]
        rw [hhead]
        have hcomp : ((fun j => divide_by_ten ((c :: rest).getD j "0")) ∘ Nat.succ)
            = (fun j => divide_by_ten (rest.getD j "0")) := rfl
        rw [hcomp]
        exact ih k (max acc n) (le_trans hacc (le_max_left acc n))
          (by simpa using Nat.le_of_succ_le_succ (by simpa using hlen))
          (fun x hx => hcells x (List.mem_cons_of_mem c hx))

/-- With no beach overlay, the emitted total height of a slot is the
scaled `wave_height` cell of the oceanic matrix. -/
theorem parse_waves_totalHeight {ov : List (List String)} {idx : ℕ} {w : Waves}
    (h : parse_waves ov none idx = some w) :
    w.totalHeight.value = divide_by_ten (safe_get ov (dget OCEAN_VARIABLES "wave_height") idx "0") := by
  unfold parse_waves at h
  simp only [bind, Option.bind_eq_some, Option.pure_def, Option.some.injEq] at h
  obtain ⟨th, hth, ws, hws, sa, hsa, sb, hsb, hrec⟩ := h
  obtain ⟨v, hv, hveq⟩ := wave_channel_value_eq hth
  rw [← hrec]
  show th.value = _
  rw [hveq]
  rw [show get_wave_value ov none "wave_height" "wave_height" idx true
      = some (divide_by_ten (safe_get ov (dget OCEAN_VARIABLES "wave_height") idx "0")) from rfl] at hv
  exact (Option.some.inj hv).symm

theorem hours_loop_th_values {bo : Option ℤ} {ov : List (List String)}
    {av : Option (List (List String))} {ft : String} :
    ∀ {l : List (ℕ × ℕ)} {hs : List Hour},
      hours_loop bo ov none av ft l = some hs →
      hs.map (fun x => x.waves.totalHeight.value)
        = l.map (fun p => divide_by_ten (safe_get ov (dget OCEAN_VARIABLES "wave_height") p.1 "0")) := by
  intro l
  induction l with
  | nil =>
    intro hs h
    simp only [hours_loop, Option.some.injEq] at h
    rw [← h]
    rfl
  | cons p rest ih =>
    intro hs h
    obtain ⟨idx, hour⟩ := p
    unfold hours_loop at h
    simp only [bind, Option.bind_eq_some, Option.pure_def, Option.some.injEq] at h
    obtain ⟨waves, hwv, winds, hwn, tail, htail, hcons⟩ := h
    rw [← hcons, List.map_cons, List.map_cons, ih htail]
    congr 1
    exact parse_waves_totalHeight hwv

/-- Mapping the first components of `enumerate(TIME_HOURS)` is the slot
range 0..7. -/
theorem enum_fst_map {α : Type} (g : ℕ → α) :
    TIME_HOURS.enum.map (fun p => g p.1) = (List.range 8).map g := rfl

/-- Zeta-expanded form of one aggregator step. -/
theorem max_value_step_eq (data : Dados) (vt : String) (vi : ℕ) (acc : ℤ) (i : ℕ) :
    max_value_step data vt vi acc i =
      if ((if vt = "s" then data.s else data.v) i).getD "" = "" then acc
      else
        match (pySplit (((if vt = "s" then data.s else data.v) i).getD "") ';').get? vi with
        | some row => parse_int_max acc (pySplit row ':')
        | none => acc := rfl

/-- A successful day parse exposes its hour list. -/
theorem parse_one_day_hours_src {base : Date} {ad od : Dados} {bo : Option ℤ} {ft : String}
    {i : ℕ} {day : Day} {m : List (List String)}
    (h : parse_one_day base ad od bo ft i = some day)
    (hov : parse_day_variables ((od.v i).getD "") = some m) :
    ∃ hs, parse_wave_hours bo m (parse_day_variables ((od.s i).getD ""))
        (parse_day_variables ((ad.v i).getD "")) ft = some hs ∧ day.hours = hs := by
  unfold parse_one_day at h
  rw [hov] at h
  dsimp only at h
  rw [if_neg (parse_day_variables_ne_empty hov)] at h
  simp only [bind, Option.bind_eq_some, Option.pure_def, Option.some.injEq] at h
  obtain ⟨hs, hhs, hrec⟩ := h
  exact ⟨hs, hhs, by rw [← hrec]⟩

/-- The day-list induction behind C1: with no beach overlay and
well-formed `wave_height` rows, the aggregator's scan over a set of day
indices equals (after scaling) the maximum of all heights those days
emit, threaded through any starting accumulator. -/
theorem maxfold_days (ad od : Dados) (bo : Option ℤ) (ft : String) (base : Date) :
    ∀ (l : List ℕ) (acc : ℤ) (ds : List Day), 0 ≤ acc →
      (∀ i ∈ l, od.s i = none) →
      (∀ i ∈ l, goodRow ((od.v i).getD "")) →
      days_loop base ad od bo ft l = some ds →
      qdiv ((l.foldl (max_value_step od "v" 0) acc : ℤ) : ℚ) 10
        = List.foldl max (qdiv ((acc : ℤ) : ℚ) 10) (allTotalHeights ds) := by
  intro l
  induction l with
  | nil =>
    intro acc ds hacc _ _ h
    simp only [days_loop, Option.some.injEq] at h
    rw [← h]
    rfl
  | cons i rest ih =>
    intro acc ds hacc hsb hgr h
    unfold days_loop at h
    simp only [bind, Option.bind_eq_some, Option.pure_def, Option.some.injEq] at h
    obtain ⟨day, hday, tail, htail, hcons⟩ := h
    rw [← hcons]
    have hsplit : allTotalHeights (day :: tail)
        = day.hours.map (fun x => x.waves.totalHeight.value) ++ allTotalHeights tail := by
      simp [allTotalHeights]
    rw [hsplit, List.foldl_append, List.foldl_cons]
    by_cases hds : (od.v i).getD "" = ""
    · have hstep : max_value_step od "v" 0 acc i = acc := by
        rw [max_value_step_eq]
        rw [show ((if ("v" : String) = "s" then od.s else od.v) i).getD "" = (od.v i).getD ""
          from rfl]
        rw [if_pos hds]
      have hov : parse_day_variables ((od.v i).getD "") = none := by
        rw [hds]
        rfl
      obtain ⟨hhours, _⟩ := parse_one_day_empty hday hov
      rw [hstep, hhours]
      exact ih acc tail hacc (fun j hj => hsb j (List.mem_cons_of_mem i hj))
        (fun j hj => hgr j (List.mem_cons_of_mem i hj)) htail
    · cases hvar : pySplit ((od.v i).getD "") ';' with
      | nil => exact absurd hvar (pySplit_ne_nil _ _)
      | cons v0 vrest =>
        have hg := hgr i (List.mem_cons_self i rest) hds
        rw [hvar] at hg
        have hg2 : (pySplit v0 ':').length ≤ 8 ∧
            ∀ c ∈ pySplit v0 ':', 0 ≤ (str_to_int? c).getD (-1) := hg
        have hov : parse_day_variables ((od.v i).getD "")
            = some (pySplit v0 ':' :: vrest.map (fun v => pySplit v ':')) := by
          unfold parse_day_variables
          rw [if_neg hds, hvar, List.map_cons]
        obtain ⟨hrs, hhl, hdayhours⟩ := parse_one_day_hours_src hday hov
        have hbv : parse_day_variables ((od.s i).getD "") = none := by
          rw [hsb i (List.mem_cons_self i rest)]
          rfl
        rw [hbv] at hhl
        unfold parse_wave_hours at hhl
        have hmap := hours_loop_th_values hhl
        have hmap2 : hrs.map (fun x => x.waves.totalHeight.value)
            = (List.range 8).map (fun j => divide_by_ten ((pySplit v0 ':').getD j "0")) :=
          hmap.trans (enum_fst_map (fun j => divide_by_ten
            (safe_get (pySplit v0 ':' :: vrest.map (fun v => pySplit v ':'))
              (dget OCEAN_VARIABLES "wave_height") j "0")))
        have hstep : max_value_step od "v" 0 acc i = parse_int_max acc (pySplit v0 ':') := by
          rw [max_value_step_eq]
          rw [show ((if ("v" : String) = "s" then od.s else od.v) i).getD "" = (od.v i).getD ""
            from rfl]
          rw [if_neg hds, hvar]
          rfl
        rw [hstep, hdayhours, hmap2,
          foldl_max_heights (pySplit v0 ':') 8 acc hacc hg2.1 hg2.2]
        exact ih (parse_int_max acc (pySplit v0 ':')) tail
          (le_trans hacc (le_parse_int_max _ acc))
          (fun j hj => hsb j (List.mem_cons_of_mem i hj))
          (fun j hj => hgr j (List.mem_cons_of_mem i hj)) htail

/-- C1 counterexample: with a beach overlay present, `maxHeight` (1.5,
from the oceanic v-blob) differs from the maximum emitted
`totalHeight.value` (9.9, from the s-blob) by far more than the 1e-9
tolerance. -/
theorem c1_counterexample :
    (build_forecast today0 beach92 "SURF" none (some { dados := some dadosOverlay })).map
        (fun r => (r.forecast.maxHeight, qmax (allTotalHeights r.forecast.days)))
      = some (Rat.divInt 3 2, Rat.divInt 99 10) ∧
      Rat.divInt 1 1000000000 < qsub (Rat.divInt 99 10) (Rat.divInt 3 2) := by
  refine ⟨by decide, by decide⟩

/-- C1 (amended): `maxHeight` is computed from the oceanic v-blobs
only.  When no beach overlay is present and every day's `wave_height`
row is well-formed (at most 8 cells, all non-negative integers),
`maxHeight` equals the maximum over all (day, slot) pairs of
`waves.totalHeight.value` exactly (hence within any tolerance).  With
an overlay the emitted heights come from the s-blob and the equality
fails (see the counterexample). -/
theorem c1_maxHeight_ocean_rows (today : Date) (beach : BeachData) (ft : String)
    (atm : Option Blob) (od : Dados) (r : Response)
    (hs : ∀ i, od.s i = none)
    (hw : ∀ i, i < 15 → goodRow ((od.v i).getD ""))
    (hb : build_forecast today beach ft atm (some { dados := some od }) = some r) :
    r.forecast.maxHeight = qmax (allTotalHeights r.forecast.days) := by
  unfold build_forecast at hb
  dsimp only at hb
  simp only [bind, Option.bind_eq_some, Option.pure_def, Option.some.injEq] at hb
  obtain ⟨days, hdays, hrec⟩ := hb
  rw [← hrec]
  unfold parse_days at hdays
  dsimp only at hdays
  replace hdays := if_none_eq_some hdays
  show qdiv (((List.range 15).foldl
      (max_value_step (dadosOf (some { dados := some od })) "v" 0) 0 : ℤ) : ℚ) 10
    = qmax (allTotalHeights days)
  exact maxfold_days _ (dadosOf (some { dados := some od })) _ ft _ (List.range 15) 0 days
    (le_refl 0) (fun i _ => hs i) (fun i hi => hw i (List.mem_range.mp hi)) hdays

/-- C1 witness: the amended theorem applied to `dadosPlain` (no
overlay, one well-formed day). -/
theorem c1_witness :
    (∀ i, dadosPlain.s i = none) ∧
      (∀ i, i < 15 → goodRow ((dadosPlain.v i).getD "")) ∧
      build_forecast today0 beach92 "SURF" none (some { dados := some dadosPlain })
        = some respPlain ∧
      respPlain.forecast.maxHeight = qmax (allTotalHeights respPlain.forecast.days) := by
  have hgr : ∀ i, i < 15 → goodRow ((dadosPlain.v i).getD "") := by
    intro i _
    by_cases h0 : i = 0
    · subst h0
      unfold goodRow
      intro _
      exact ⟨by decide, by decide⟩
    · have hnone : (dadosPlain.v i).getD "" = "" := by
        simp [dadosPlain, h0]
      rw [hnone]
      intro hne
      exact absurd rfl hne
  exact ⟨fun i => rfl, hgr, by decide,
    c1_maxHeight_ocean_rows today0 beach92 "SURF" none dadosPlain respPlain (fun i => rfl)
      hgr (by decide)⟩

end Surfguru
